import Mathlib

/-!
Shallow embedding of the trade execution engine
(`src/app/services/trade_engine.py` with the data model of
`src/app/models/trade.py`, `src/app/models/alert.py`,
`src/app/models/strategy.py`, `src/app/models/user.py`).

Broker calls, database queries and the current wall-clock time are
resolved to explicit inputs; prices and monetary amounts are exact
rationals; timestamps are abstract naturals.
-/

namespace Trader

/-- Python `int()` applied to a (float) quotient: truncation toward zero,
modelled on exact rationals. -/
def pyInt (r : ℚ) : Int := if r < 0 then ⌈r⌉ else ⌊r⌋

/-- Python truthiness of an optional float value (`if not x:` in the source):
`None` and `0.0` are falsy, every other float is truthy. -/
def truthy (x : Option ℚ) : Bool :=
  match x with
  | none => false
  | some v => v != 0

/-- Python truthiness of an optional string (`if not trade.fyers_order_id:`):
`None` and the empty string are falsy. -/
def strTruthy (x : Option String) : Bool :=
  match x with
  | none => false
  | some s => s != ""

/-- `TradeStatus` enumeration of `src/app/models/trade.py`. -/
inductive TradeStatus where
  | pending
  | submitted
  | filled
  | partiallyFilled
  | cancelled
  | rejected
  | failed
deriving DecidableEq

/-- `OrderType` enumeration of `src/app/models/trade.py`. -/
inductive OrderType where
  | market
  | limit
  | stopLoss
  | stopLimit
deriving DecidableEq

/-- `OrderSide` enumeration of `src/app/models/trade.py`. -/
inductive OrderSide where
  | buy
  | sell
deriving DecidableEq

/-- `AlertStatus` enumeration of `src/app/models/alert.py`. -/
inductive AlertStatus where
  | received
  | processing
  | processed
  | failed
  | ignored
deriving DecidableEq

/-- `AlertType` enumeration of `src/app/models/alert.py`. -/
inductive AlertType where
  | buy
  | sell
  | hold
  | stopLoss
  | takeProfit
deriving DecidableEq

/-- The `.value` string of an `AlertType` member (Python `str` enum). -/
def AlertType.value : AlertType → String
  | .buy => "buy"
  | .sell => "sell"
  | .hold => "hold"
  | .stopLoss => "stop_loss"
  | .takeProfit => "take_profit"

/-- The fields of the `Trade` model (`src/app/models/trade.py`) read or
written by the engine. -/
structure Trade where
  symbol : String
  exchange : String
  side : OrderSide
  order_type : OrderType
  quantity : Int
  price : Option ℚ
  filled_quantity : Int
  average_price : Option ℚ
  total_amount : Option ℚ
  fyers_order_id : Option String
  fyers_status : Option String
  fyers_message : Option String
  status : TradeStatus
  submitted_at : Option Nat
  filled_at : Option Nat
  cancelled_at : Option Nat
  net_pnl : Option ℚ
  created_at : Nat
  updated_at : Nat
deriving DecidableEq

/-- The keys of `strategy.position_sizing_rules` consulted by
`TradeEngine._calculate_position_size`; a field is `some` exactly when the
key is present in the JSON dict. -/
structure SizingRules where
  fixed_amount : Option ℚ
  percentage_of_capital : Option ℚ
  fixed_quantity : Option Int
deriving DecidableEq

/-- The fields of the `Strategy` model (`src/app/models/strategy.py`) read or
written by the engine. -/
structure Strategy where
  is_active : Bool
  is_paper_trading : Bool
  position_sizing_rules : SizingRules
  max_position_size : Option ℚ
  total_trades : Int
  last_executed_at : Option Nat
deriving DecidableEq

/-- `TradeEngine._calculate_position_size`
(`src/app/services/trade_engine.py`, lines 289-338), with the two broker
calls resolved to explicit inputs: `current_price` is the value returned by
`get_current_price` and `available_funds` the resolved
`funds_data.get("data", {}).get("fund_limit", 0)`.  The Python source
guards with `if not current_price: return 0` (falsy for `None` and `0.0`),
dispatches on key presence in the rules dict in the order fixed_amount,
percentage_of_capital, fixed_quantity, default 1% of funds, caps by the
strategy's truthy `max_position_size`, then floors the result at 1. -/
def calculate_position_size (strategy : Strategy) (current_price : Option ℚ)
    (available_funds : ℚ) : Int :=
  if !truthy current_price then 0
  else
    let price := current_price.getD 0
    let rules := strategy.position_sizing_rules
    let quantity : Int :=
      if rules.fixed_amount.isSome then
        pyInt (rules.fixed_amount.getD 0 / price)
      else if rules.percentage_of_capital.isSome then
        pyInt (available_funds * (rules.percentage_of_capital.getD 0 / 100) / price)
      else if rules.fixed_quantity.isSome then
        rules.fixed_quantity.getD 0
      else
        pyInt (available_funds * (1 / 100) / price)
    let capped : Int :=
      if truthy strategy.max_position_size then
        min quantity (pyInt (strategy.max_position_size.getD 0 / price))
      else quantity
    max capped 1

/-- The per-process risk limits read from `settings` at `RiskManager`
construction (`src/app/services/trade_engine.py`, lines 25-31). -/
structure RiskConfig where
  max_position_size : ℚ
  max_daily_loss : ℚ
  max_daily_trades : Nat
deriving DecidableEq

/-- The field of the `Portfolio` model read by `RiskManager.check_risk_limits`. -/
structure Portfolio where
  quantity : Int
deriving DecidableEq

/-- Reason string of the daily-trade-count rejection. -/
def dailyTradeLimitReason (cfg : RiskConfig) : String :=
  "Daily trade limit exceeded (" ++ toString cfg.max_daily_trades ++ ")"

/-- Reason string of the daily-loss rejection. -/
def dailyLossLimitReason (cfg : RiskConfig) : String :=
  "Daily loss limit exceeded (" ++ toString cfg.max_daily_loss ++ ")"

/-- Reason string of the per-trade position-size rejection. -/
def positionSizeReason (cfg : RiskConfig) : String :=
  "Position size exceeds limit (" ++ toString cfg.max_position_size ++ ")"

/-- Reason string of the total-exposure rejection. -/
def totalPositionReason : String := "Total position size would exceed limit"

/-- Reason string of a passing risk check. -/
def riskPassedReason : String := "Risk checks passed"

/-- Whether a reason string is the size-related one (it starts with the
fixed text of the position-size rejection message). -/
def sizeRelated (reason : String) : Bool :=
  "Position size exceeds limit".data.isPrefixOf reason.data

/-- `daily_loss` of `RiskManager.check_risk_limits`: the sum of
`trade.net_pnl or 0` over today's trades whose `net_pnl` is truthy and
negative. -/
def dailyLoss (daily_trades : List Trade) : ℚ :=
  ((daily_trades.filter fun t =>
      truthy t.net_pnl && decide (t.net_pnl.getD 0 < 0)).map
    fun t => t.net_pnl.getD 0).sum

/-- `RiskManager.check_risk_limits` (`src/app/services/trade_engine.py`,
lines 33-88), with the database queries resolved to explicit inputs:
`daily_trades` is the result of the query for today's filled or
partially-filled trades of the user, and `portfolio` the user's portfolio
row for the symbol, if any.  The checks short-circuit in source order:
daily trade count, daily loss, per-trade position size, total exposure. -/
def check_risk_limits (cfg : RiskConfig) (daily_trades : List Trade)
    (portfolio : Option Portfolio) (side : String) (quantity : Int)
    (price : ℚ) : Bool × String :=
  if cfg.max_daily_trades ≤ daily_trades.length then
    (false, dailyTradeLimitReason cfg)
  else if cfg.max_daily_loss ≤ |dailyLoss daily_trades| then
    (false, dailyLossLimitReason cfg)
  else if cfg.max_position_size < (quantity : ℚ) * price then
    (false, positionSizeReason cfg)
  else
    match portfolio with
    | some p =>
        let new_position_size : Nat :=
          (p.quantity + (if side.toUpper == "BUY" then quantity
                         else -quantity)).natAbs
        if cfg.max_position_size < (new_position_size : ℚ) * price then
          (false, totalPositionReason)
        else (true, riskPassedReason)
    | none => (true, riskPassedReason)

/-- `Trade.update_execution` (`src/app/models/trade.py`, lines 139-152). -/
def Trade.update_execution (t : Trade) (filled_qty : Int) (avg_price : ℚ)
    (fyers_status : String) (now : Nat) : Trade :=
  let t1 := { t with
    filled_quantity := filled_qty
    average_price := some avg_price
    fyers_status := some fyers_status
    total_amount := some ((filled_qty : ℚ) * avg_price) }
  let t2 :=
    if filled_qty = t.quantity then
      { t1 with status := TradeStatus.filled, filled_at := some now }
    else if 0 < filled_qty then
      { t1 with status := TradeStatus.partiallyFilled }
    else t1
  { t2 with updated_at := now }

/-- `TradeEngine._execute_paper_trade` (`src/app/services/trade_engine.py`,
lines 340-358): after the simulated latency, the trade is updated as fully
filled at its reference price with broker status string "filled", and the
executor reports success. -/
def execute_paper_trade (trade : Trade) (now : Nat) : Trade × Bool :=
  (trade.update_execution trade.quantity (trade.price.getD 0) "filled" now,
   true)

/-- The `order_response["data"]` dict of a live order placement. -/
structure LiveOrderData where
  id : Option String
  status : Option String
deriving DecidableEq

/-- The broker's reply to a live order placement, as consumed by
`TradeEngine._execute_live_trade`: `data` is `order_response.get("data")`
(`none` when the key is missing or falsy), `message` is
`order_response.get("message")`. -/
structure LiveOrderResponse where
  data : Option LiveOrderData
  message : Option String
deriving DecidableEq

/-- `TradeEngine._execute_live_trade` (`src/app/services/trade_engine.py`,
lines 360-399), with the broker call resolved to the explicit reply
`resp`: market and limit orders are placed, any other order type fails;
the trade stores the broker order id, status and message on success. -/
def execute_live_trade (trade : Trade) (resp : LiveOrderResponse) :
    Trade × Bool :=
  match trade.order_type with
  | OrderType.market | OrderType.limit =>
      match resp.data with
      | some d =>
          ({ trade with
              fyers_order_id := d.id
              fyers_status := d.status
              fyers_message := resp.message }, true)
      | none => (trade, false)
  | _ => (trade, false)

/-- The fields of the `User` model read by the engine. -/
structure User where
  fyers_access_token : Option String
  fyers_refresh_token : Option String
  fyers_token_expires_at : Option Nat
deriving DecidableEq

/-- `User.has_fyers_credentials` (`src/app/models/user.py`, lines 63-70):
all three credential fields present and the token not yet expired. -/
def User.has_fyers_credentials (u : User) (now : Nat) : Bool :=
  u.fyers_access_token.isSome && u.fyers_refresh_token.isSome &&
    u.fyers_token_expires_at.isSome &&
    decide (now < u.fyers_token_expires_at.getD 0)

/-- The fields of the `Alert` model (`src/app/models/alert.py`) read or
written by the engine; `metadata_is_scan_alert` is the truthiness of
`alert.metadata.get("is_scan_alert")`. -/
structure Alert where
  symbol : String
  exchange : String
  alert_type : AlertType
  price : Option ℚ
  quantity : Option Int
  message : Option String
  metadata_is_scan_alert : Bool
  status : AlertStatus
  processed_at : Option Nat
  error_message : Option String
  matched_strategy_id : Option Nat
  confidence_score : Option ℚ
  created_at : Nat
  updated_at : Nat
deriving DecidableEq

/-- `Alert.is_processed` (`src/app/models/alert.py`, lines 90-93). -/
def Alert.is_processed (a : Alert) : Bool :=
  a.status = AlertStatus.processed || a.status = AlertStatus.failed ||
    a.status = AlertStatus.ignored

/-- `Alert.mark_as_processing` (`src/app/models/alert.py`). -/
def Alert.mark_as_processing (a : Alert) (now : Nat) : Alert :=
  { a with status := AlertStatus.processing, updated_at := now }

/-- `Alert.mark_as_processed` (`src/app/models/alert.py`) as the engine
calls it, with no strategy id and no confidence argument. -/
def Alert.mark_as_processed (a : Alert) (now : Nat) : Alert :=
  { a with status := AlertStatus.processed, processed_at := some now,
           updated_at := now }

/-- `Alert.mark_as_failed` (`src/app/models/alert.py`). -/
def Alert.mark_as_failed (a : Alert) (msg : String) (now : Nat) : Alert :=
  { a with status := AlertStatus.failed, error_message := some msg,
           processed_at := some now, updated_at := now }

/-- `Alert.mark_as_ignored` (`src/app/models/alert.py`). -/
def Alert.mark_as_ignored (a : Alert) (reason : String) (now : Nat) : Alert :=
  { a with status := AlertStatus.ignored, error_message := some reason,
           processed_at := some now, updated_at := now }

/-- The broker and database state one `TradeEngine._execute_trade` pass
observes, resolved to explicit values: `sizing_price` is what
`get_current_price` returns inside `_calculate_position_size`,
`exec_price` what it returns when `_execute_trade` fetches the price
again, `available_funds` the resolved fund limit, `daily_trades` and
`portfolio` the query results the risk check reads, `live_response` the
broker reply used on the live path, and `now` the wall-clock timestamp of
the pass. -/
structure ExecEnv where
  sizing_price : Option ℚ
  available_funds : ℚ
  exec_price : Option ℚ
  daily_trades : List Trade
  portfolio : Option Portfolio
  live_response : LiveOrderResponse
  now : Nat
deriving DecidableEq

/-- Outcome of one `TradeEngine._execute_trade` pass: the Trade row it
added to the session (if any), the returned boolean, and the strategy with
its counters as updated by the pass. -/
structure ExecResult where
  created : Option Trade
  success : Bool
  strategy : Strategy
deriving DecidableEq

/-- `TradeEngine._execute_trade` (`src/app/services/trade_engine.py`,
lines 213-287): position sizing, price fetch, risk check, Trade creation
in `pending`, dispatch to the paper or live executor, then the final
status update (`submitted` on success, `failed` on failure) and the
strategy counter updates. -/
def execute_trade (cfg : RiskConfig) (env : ExecEnv) (alert : Alert)
    (strategy : Strategy) : ExecResult :=
  let quantity :=
    calculate_position_size strategy env.sizing_price env.available_funds
  if quantity ≤ 0 then ⟨none, false, strategy⟩
  else if !truthy env.exec_price then ⟨none, false, strategy⟩
  else
    let current_price := env.exec_price.getD 0
    let risk := check_risk_limits cfg env.daily_trades env.portfolio
        alert.alert_type.value quantity current_price
    if !risk.1 then ⟨none, false, strategy⟩
    else
      let trade : Trade :=
        { symbol := alert.symbol
          exchange := alert.exchange
          side := if alert.alert_type.value == "buy" then OrderSide.buy
                  else OrderSide.sell
          order_type := OrderType.market
          quantity := quantity
          price := some current_price
          filled_quantity := 0
          average_price := none
          total_amount := none
          fyers_order_id := none
          fyers_status := none
          fyers_message := none
          status := TradeStatus.pending
          submitted_at := none
          filled_at := none
          cancelled_at := none
          net_pnl := none
          created_at := env.now
          updated_at := env.now }
      let executed :=
        if strategy.is_paper_trading then execute_paper_trade trade env.now
        else execute_live_trade trade env.live_response
      if executed.2 then
        ⟨some { executed.1 with status := TradeStatus.submitted,
                                submitted_at := some env.now },
         true,
         { strategy with total_trades := strategy.total_trades + 1,
                         last_executed_at := some env.now }⟩
      else
        ⟨some { executed.1 with status := TradeStatus.failed }, false,
         strategy⟩

/-- `TradeEngine._should_execute_trade` (`src/app/services/trade_engine.py`,
lines 185-211), with the market-status probe resolved to `market_open`
(`none` when the probe raised, which the source tolerates and proceeds). -/
def should_execute_trade (alert : Alert) (strategy : Strategy)
    (market_open : Option Bool) : Bool :=
  if !(alert.alert_type.value == "buy" || alert.alert_type.value == "sell")
    then false
  else if strategy.is_paper_trading then true
  else
    match market_open with
    | some false => false
    | _ => true

/-- Outcome of one `TradeEngine.process_alert` invocation: the alert row
as left in the database (when the id resolved), the Trade rows the pass
created, and the returned boolean. -/
structure ProcessResult where
  alert : Option Alert
  trades : List Trade
  result : Bool
deriving DecidableEq

/-- `TradeEngine.process_alert` (`src/app/services/trade_engine.py`,
lines 104-183), with the lookups resolved to explicit inputs: `alert` is
the row the id resolved to, `user` the owner row, `strategies` the active
strategies of the user zipped with the broker and database snapshot each
per-strategy execution pass observes, `market_open` the market probe, and
`now` the invocation's timestamp. -/
def process_alert (cfg : RiskConfig) (alert : Option Alert)
    (user : Option User) (strategies : List (Strategy × ExecEnv))
    (market_open : Option Bool) (now : Nat) : ProcessResult :=
  match alert with
  | none => ⟨none, [], false⟩
  | some a =>
    if a.is_processed then ⟨some a, [], true⟩
    else if a.metadata_is_scan_alert then
      ⟨some (a.mark_as_ignored "Scan alert - informational only" now), [],
       true⟩
    else
      let a1 := a.mark_as_processing now
      match user with
      | none => ⟨some (a1.mark_as_failed "User not found" now), [], false⟩
      | some u =>
        if !u.has_fyers_credentials now then
          ⟨some (a1.mark_as_failed "User has no valid Fyers credentials" now),
           [], false⟩
        else if strategies.isEmpty then
          ⟨some (a1.mark_as_ignored "No active strategies found" now), [],
           true⟩
        else
          let step := fun (acc : List Trade × Nat) (se : Strategy × ExecEnv) =>
            if should_execute_trade a se.1 market_open then
              let r := execute_trade cfg se.2 a se.1
              (acc.1 ++ r.created.toList,
               acc.2 + if r.success then 1 else 0)
            else acc
          let outcome := strategies.foldl step ([], 0)
          if 0 < outcome.2 then
            ⟨some (a1.mark_as_processed now), outcome.1, true⟩
          else
            ⟨some (a1.mark_as_ignored "No trades executed" now), outcome.1,
             true⟩

/-- The `order_data["data"]` dict returned by the broker order-status
query, as consumed by `TradeEngine.update_trade_status`: each field is
`some` exactly when the key is present. -/
structure OrderInfo where
  status : Option String
  filledQty : Option Int
  avgPrice : Option ℚ
deriving DecidableEq

/-- Python `str.lower()` restricted to the character-wise ASCII case map. -/
def pyLower (s : String) : String := String.mk (s.data.map Char.toLower)

/-- The mutation `TradeEngine.update_trade_status` applies to a trade from
a broker status payload (`src/app/services/trade_engine.py`, lines
425-441): the raw broker status string is stored, then the lower-cased
status is mapped to `filled` (with filled timestamp, filled quantity and
average price defaulting to the trade's own quantity and price),
`cancelled` (with cancellation timestamp) or `rejected`; any other status
changes nothing further. -/
def apply_order_info (t : Trade) (info : OrderInfo) (now : Nat) : Trade :=
  let t1 := { t with fyers_status := info.status }
  let fs := pyLower (info.status.getD "")
  if fs == "filled" then
    { t1 with status := TradeStatus.filled
              filled_at := some now
              filled_quantity := info.filledQty.getD t.quantity
              average_price :=
                match info.avgPrice with
                | some v => some v
                | none => t.price }
  else if fs == "cancelled" then
    { t1 with status := TradeStatus.cancelled, cancelled_at := some now }
  else if fs == "rejected" then
    { t1 with status := TradeStatus.rejected }
  else t1

/-- `TradeEngine.update_trade_status` (`src/app/services/trade_engine.py`,
lines 401-449), with the lookups resolved to explicit inputs: `trade` is
the row the id resolved to, `user` the owner row, `order_data` the
`order_data.get("data")` payload of the broker query (`none` when missing
or falsy).  Returns the trade row as left in the database and the
function's boolean result. -/
def update_trade_status (trade : Option Trade) (user : Option User)
    (order_data : Option OrderInfo) (now : Nat) : Option Trade × Bool :=
  match trade with
  | none => (none, false)
  | some t =>
    if !strTruthy t.fyers_order_id then (some t, false)
    else
      match user with
      | none => (some t, false)
      | some _ =>
        match order_data with
        | none => (some t, false)
        | some info => (some (apply_order_info t info now), true)

/-- Position of an alert status along the forward order
`received → processing → {processed, failed, ignored}`. -/
def alertRank : AlertStatus → Nat
  | AlertStatus.received => 0
  | AlertStatus.processing => 1
  | _ => 2

/-! Concrete sample records used by witnesses and counterexamples. -/

/-- A paper-trading strategy sized by `fixed_quantity = 1`, no cap. -/
def paperStrategy : Strategy :=
  { is_active := true
    is_paper_trading := true
    position_sizing_rules := ⟨none, none, some 1⟩
    max_position_size := none
    total_trades := 0
    last_executed_at := none }

/-- A strategy with `fixed_quantity = 5` and `max_position_size = 100`. -/
def cappedStrategy : Strategy :=
  { paperStrategy with
      position_sizing_rules := ⟨none, none, some 5⟩
      max_position_size := some 100 }

/-- A strategy with `fixed_quantity = 7` and no cap. -/
def uncappedStrategy : Strategy :=
  { paperStrategy with position_sizing_rules := ⟨none, none, some 7⟩ }

/-- Generous process-wide risk limits. -/
def sampleCfg : RiskConfig := ⟨1000000, 1000, 10⟩

/-- Risk limits with a daily-trade cap of one and position cap 100. -/
def tightCfg : RiskConfig := ⟨100, 1000, 1⟩

/-- A user with valid broker credentials at any time before 100. -/
def sampleUser : User := ⟨some "tok", some "ref", some 100⟩

/-- A submitted trade holding a broker order id. -/
def reconTrade : Trade :=
  { symbol := "RELIANCE"
    exchange := "NSE"
    side := OrderSide.buy
    order_type := OrderType.market
    quantity := 10
    price := some 2500
    filled_quantity := 0
    average_price := none
    total_amount := none
    fyers_order_id := some "OID1"
    fyers_status := none
    fyers_message := none
    status := TradeStatus.submitted
    submitted_at := some 1
    filled_at := none
    cancelled_at := none
    net_pnl := none
    created_at := 0
    updated_at := 1 }

/-- A pending trade that was never submitted to the broker. -/
def noOrderTrade : Trade :=
  { reconTrade with fyers_order_id := none, status := TradeStatus.pending }

/-- A filled trade, counting toward the daily trade limit. -/
def filledTrade : Trade :=
  { reconTrade with status := TradeStatus.filled, filled_quantity := 10 }

/-- A buy alert in `received` state. -/
def sampleAlert : Alert :=
  { symbol := "RELIANCE"
    exchange := "NSE"
    alert_type := AlertType.buy
    price := some 2500
    quantity := none
    message := none
    metadata_is_scan_alert := false
    status := AlertStatus.received
    processed_at := none
    error_message := none
    matched_strategy_id := none
    confidence_score := none
    created_at := 0
    updated_at := 0 }

/-- An alert already in the terminal `processed` state. -/
def doneAlert : Alert := { sampleAlert with status := AlertStatus.processed }

/-- A broker/database snapshot: price 100 everywhere, no funds needed,
empty daily history, no portfolio row. -/
def sampleEnv : ExecEnv :=
  { sizing_price := some 100
    available_funds := 0
    exec_price := some 100
    daily_trades := []
    portfolio := none
    live_response := ⟨none, none⟩
    now := 7 }

/-- A broker order-status payload: raw status "Filled", 10 filled at
2501.25. -/
def infoFilled : OrderInfo := ⟨some "Filled", some 10, some (10005 / 4)⟩

/-! Theorems settling the claims. -/

/-- Claim C4 (confirmed): whenever the current market price is resolvable
(truthy, as the source's `if not current_price` tests), the computed
position size is at least 1; the function returns 0 exactly when no price
was obtained. -/
theorem claim_C4 (s : Strategy) (price : Option ℚ) (funds : ℚ) :
    (truthy price = true → 1 ≤ calculate_position_size s price funds) ∧
    (truthy price = false → calculate_position_size s price funds = 0) := by
  constructor <;> intro h
  · simp only [calculate_position_size, h, Bool.not_true, Bool.false_eq_true,
      if_false]
    exact le_max_right _ 1
  · simp [calculate_position_size, h]

/-- Witness for C4 at concrete inputs: a resolvable price of 100 gives a
quantity of at least 1, an unresolvable price gives 0. -/
theorem claim_C4_witness :
    (1 ≤ calculate_position_size paperStrategy (some 100) 0) ∧
    (calculate_position_size paperStrategy none 0 = 0) :=
  ⟨(claim_C4 paperStrategy (some 100) 0).1 (by simp [truthy]),
   (claim_C4 paperStrategy none 0).2 rfl⟩

/-- Claim C7 (confirmed): for an alert already in a terminal status,
`process_alert` returns success, leaves the alert row untouched and
creates no Trade rows. -/
theorem claim_C7 (cfg : RiskConfig) (a : Alert) (user : Option User)
    (strategies : List (Strategy × ExecEnv)) (mo : Option Bool) (now : Nat)
    (h : a.is_processed = true) :
    process_alert cfg (some a) user strategies mo now = ⟨some a, [], true⟩ := by
  simp [process_alert, h]

/-- Witness for C7: a `processed` alert is returned unchanged with
success and no trades. -/
theorem claim_C7_witness :
    process_alert sampleCfg (some doneAlert) none [] none 3 =
      ⟨some doneAlert, [], true⟩ :=
  claim_C7 sampleCfg doneAlert none [] none 3 (by decide)

/-- Counterexample to C8 as stated: `process_alert` on an id that
resolves to no alert row returns false, not true. -/
theorem claim_C8_counterexample :
    (process_alert sampleCfg none none [] none 0).result = false := rfl

/-- Claim C8 (corrected): for ids requiring no action the two entry
points are no-ops, but only the already-terminal-alert case returns true:
`process_alert` returns false for an unknown id, true for a terminal
alert; `update_trade_status` returns false for an unknown id and for a
trade without a broker order id. -/
theorem claim_C8 (cfg : RiskConfig) (u : Option User)
    (ss : List (Strategy × ExecEnv)) (mo : Option Bool) (now : Nat)
    (a : Alert) (t : Trade) (u' : Option User) (od : Option OrderInfo) :
    (process_alert cfg none u ss mo now).result = false ∧
    (a.is_processed = true →
      (process_alert cfg (some a) u ss mo now).result = true) ∧
    (update_trade_status none u' od now).2 = false ∧
    (strTruthy t.fyers_order_id = false →
      (update_trade_status (some t) u' od now).2 = false) := by
  refine ⟨rfl, fun h => ?_, rfl, fun h => ?_⟩
  · simp [process_alert, h]
  · simp [update_trade_status, h]

/-- Witness for C8 at concrete inputs: unknown ids and a trade without a
broker order id give false, a terminal alert gives true. -/
theorem claim_C8_witness :
    (process_alert sampleCfg none none [] none 0).result = false ∧
    (process_alert sampleCfg (some doneAlert) none [] none 0).result = true ∧
    (update_trade_status none none none 0).2 = false ∧
    (update_trade_status (some noOrderTrade) none none 0).2 = false :=
  ⟨(claim_C8 sampleCfg none [] none 0 doneAlert noOrderTrade none none).1,
   (claim_C8 sampleCfg none [] none 0 doneAlert noOrderTrade none none).2.1
     (by decide),
   (claim_C8 sampleCfg none [] none 0 doneAlert noOrderTrade none none).2.2.1,
   (claim_C8 sampleCfg none [] none 0 doneAlert noOrderTrade none none).2.2.2
     (by decide)⟩

/-- `pyInt` agrees with the floor on nonnegative arguments. -/
lemma pyInt_eq_floor {r : ℚ} (h : 0 ≤ r) : pyInt r = ⌊r⌋ := by
  rw [pyInt, if_neg (not_lt.mpr h)]

/-- Claim C10 (confirmed): the minimum-quantity clamp is applied after
the per-strategy cap, so a cap smaller than the share price still yields
quantity 1, whose notional exceeds the strategy's own cap. -/
theorem claim_C10 (s : Strategy) (funds : ℚ) (m p : ℚ)
    (hmax : s.max_position_size = some m) (hm : 0 < m) (hp : 0 < p)
    (hfloor : pyInt (m / p) = 0) :
    calculate_position_size s (some p) funds = 1 ∧ m < (1 : ℚ) * p := by
  have hr : (0 : ℚ) ≤ m / p := div_nonneg hm.le hp.le
  have hfl : ⌊m / p⌋ = 0 := by rw [← pyInt_eq_floor hr]; exact hfloor
  have hlt : m / p < 1 := (Int.floor_eq_zero_iff.mp hfl).2
  have hmp : m < p := (div_lt_one hp).mp hlt
  refine ⟨?_, by rwa [one_mul]⟩
  have htp : truthy (some p) = true := by simp [truthy, hp.ne']
  have htm : truthy (some m) = true := by simp [truthy, hm.ne']
  simp only [calculate_position_size, htp, Bool.not_true, Bool.false_eq_true,
    if_false, hmax, htm, if_true, Option.getD_some, hfloor]
  exact max_eq_right (le_trans (min_le_right _ 0) (by norm_num))

/-- Witness for C10: cap 100, price 150 — the cap floors to 0, the clamp
lifts the result to 1, and the notional 150 exceeds the cap. -/
theorem claim_C10_witness :
    calculate_position_size cappedStrategy (some 150) 0 = 1 ∧
      (100 : ℚ) < (1 : ℚ) * 150 :=
  claim_C10 cappedStrategy 0 100 150 rfl (by norm_num) (by norm_num)
    (by norm_num [pyInt])

/-- Counterexample to C3 as stated: a strategy whose rules contain
`fixed_quantity = 5` together with `max_position_size = 100` yields
quantity 2 at price 50, not 5, and funds play no role. -/
theorem claim_C3_counterexample :
    cappedStrategy.position_sizing_rules.fixed_quantity = some 5 ∧
    truthy (some (50 : ℚ)) = true ∧
    calculate_position_size cappedStrategy (some 50) 1000000 = 2 := by
  refine ⟨rfl, by simp [truthy], ?_⟩
  have h2 : pyInt ((100 : ℚ) / 50) = 2 := by norm_num [pyInt]
  simp [calculate_position_size, truthy, cappedStrategy, paperStrategy, h2]

/-- Claim C3 (corrected): with a resolvable price, a `fixed_quantity = Q`
rule is used verbatim and funds are irrelevant, provided the
higher-precedence keys `fixed_amount` and `percentage_of_capital` are
absent, `Q ≥ 1`, and the strategy's own `max_position_size` cap (when set
and truthy) admits at least Q shares at the current price. -/
theorem claim_C3 (s : Strategy) (price funds : ℚ) (Q : Int)
    (hq : s.position_sizing_rules.fixed_quantity = some Q)
    (hfa : s.position_sizing_rules.fixed_amount = none)
    (hpc : s.position_sizing_rules.percentage_of_capital = none)
    (hp : truthy (some price) = true)
    (hQ1 : 1 ≤ Q)
    (hcap : ∀ m, s.max_position_size = some m → m ≠ 0 →
      Q ≤ pyInt (m / price)) :
    calculate_position_size s (some price) funds = Q := by
  simp only [calculate_position_size, hp, Bool.not_true, Bool.false_eq_true,
    if_false, hq, hfa, hpc, Option.isSome_none, Option.isSome_some, if_true,
    Option.getD_some]
  rcases hmx : s.max_position_size with _ | m
  · simp only [hmx, truthy, Bool.false_eq_true, if_false]
    exact max_eq_left hQ1
  · by_cases hm0 : m = 0
    · subst hm0
      simp only [hmx, truthy, bne_self_eq_false, Bool.false_eq_true, if_false]
      exact max_eq_left hQ1
    · have ht : truthy (some m) = true := by simp [truthy, hm0]
      simp only [hmx, ht, if_true, Option.getD_some]
      rw [min_eq_left (hcap m hmx hm0)]
      exact max_eq_left hQ1

/-- Witness for C3: `fixed_quantity = 7`, no other keys, no cap, price
50 — the result is exactly 7 whatever the funds. -/
theorem claim_C3_witness :
    calculate_position_size uncappedStrategy (some 50) 123456 = 7 :=
  claim_C3 uncappedStrategy 50 123456 7 rfl rfl rfl (by simp [truthy])
    (by norm_num) (fun m h _ => nomatch h)

/-- When the candidate notional exceeds the configured cap, the risk
check rejects, whichever earlier check fires first. -/
lemma check_risk_limits_fst_false_of_notional (cfg : RiskConfig)
    (dts : List Trade) (pf : Option Portfolio) (side : String) (q : Int)
    (p : ℚ) (h : cfg.max_position_size < (q : ℚ) * p) :
    (check_risk_limits cfg dts pf side q p).1 = false := by
  unfold check_risk_limits
  by_cases h1 : cfg.max_daily_trades ≤ dts.length
  · simp [h1]
  · by_cases h2 : cfg.max_daily_loss ≤ |dailyLoss dts|
    · simp [h1, h2]
    · simp [h1, h2, h]

/-- Counterexample to C5 as stated: with the daily trade limit already
reached, a trade whose notional 2 * 100 exceeds the cap 100 is rejected
with the daily-trade reason, which is not size-related. -/
theorem claim_C5_counterexample :
    tightCfg.max_position_size < ((2 : Int) : ℚ) * 100 ∧
    check_risk_limits tightCfg [filledTrade] none "buy" 2 100 =
      (false, dailyTradeLimitReason tightCfg) ∧
    sizeRelated (dailyTradeLimitReason tightCfg) = false := by
  refine ⟨by norm_num [tightCfg], ?_, by decide⟩
  simp [check_risk_limits, tightCfg]

/-- Claim C5 (corrected): a candidate trade whose notional exceeds the
configured `max_position_size` is always rejected (`allowed = false`), the
reason being the size-related one whenever the earlier daily-trade-count
and daily-loss checks pass; and an `_execute_trade` pass whose computed
quantity and fetched price exceed the cap creates no Trade record and
reports failure. -/
theorem claim_C5 (cfg : RiskConfig) (dts : List Trade)
    (pf : Option Portfolio) (side : String) (q : Int) (p : ℚ)
    (env : ExecEnv) (alert : Alert) (s : Strategy)
    (hnotional : cfg.max_position_size < (q : ℚ) * p) :
    (check_risk_limits cfg dts pf side q p).1 = false ∧
    (dts.length < cfg.max_daily_trades →
      |dailyLoss dts| < cfg.max_daily_loss →
      check_risk_limits cfg dts pf side q p =
        (false, positionSizeReason cfg) ∧
      sizeRelated (positionSizeReason cfg) = true) ∧
    (cfg.max_position_size <
        ((calculate_position_size s env.sizing_price env.available_funds :
            Int) : ℚ) * env.exec_price.getD 0 →
      execute_trade cfg env alert s = ⟨none, false, s⟩) := by
  refine ⟨check_risk_limits_fst_false_of_notional cfg dts pf side q p
    hnotional, fun hlen hloss => ⟨?_, rfl⟩, fun hx => ?_⟩
  · simp [check_risk_limits, not_le.mpr hlen, not_le.mpr hloss, hnotional]
  · have hrisk := check_risk_limits_fst_false_of_notional cfg
      env.daily_trades env.portfolio alert.alert_type.value
      (calculate_position_size s env.sizing_price env.available_funds)
      (env.exec_price.getD 0) hx
    unfold execute_trade
    by_cases hq0 :
        calculate_position_size s env.sizing_price env.available_funds ≤ 0
    · simp [hq0]
    · by_cases htr : truthy env.exec_price
      · simp [hq0, htr, hrisk]
      · simp [hq0, htr]

/-- Witness for C5: cap 100, empty history, quantity 2 at price 100 —
the check rejects with the size reason, and an execution pass computing
quantity 7 at price 100 creates nothing. -/
theorem claim_C5_witness :
    (check_risk_limits tightCfg [] none "buy" 2 100).1 = false ∧
    check_risk_limits tightCfg [] none "buy" 2 100 =
      (false, positionSizeReason tightCfg) ∧
    execute_trade tightCfg sampleEnv sampleAlert uncappedStrategy =
      ⟨none, false, uncappedStrategy⟩ := by
  have base := claim_C5 tightCfg [] none "buy" 2 100 sampleEnv sampleAlert
    uncappedStrategy (by norm_num [tightCfg])
  have hq7 : calculate_position_size uncappedStrategy (some 100) 0 = 7 := by
    simp [calculate_position_size, truthy, uncappedStrategy, paperStrategy]
  refine ⟨base.1, (base.2.1 (by norm_num [tightCfg])
    (by simp [dailyLoss, tightCfg])).1, base.2.2 ?_⟩
  show tightCfg.max_position_size <
    ((calculate_position_size uncappedStrategy (some 100) 0 : Int) : ℚ) * 100
  rw [hq7]
  norm_num [tightCfg]

/-- Every alert status sits at or below the terminal rank. -/
lemma alertRank_le_two (s : AlertStatus) : alertRank s ≤ 2 := by
  cases s <;> simp [alertRank]

/-- A `process_alert` invocation on a non-terminal alert leaves the alert
in one of the terminal statuses (rank 2). -/
lemma process_alert_status_terminal (cfg : RiskConfig) (a : Alert)
    (user : Option User) (ss : List (Strategy × ExecEnv)) (mo : Option Bool)
    (now : Nat) (hp : a.is_processed = false) :
    ∃ a', (process_alert cfg (some a) user ss mo now).alert = some a' ∧
      alertRank a'.status = 2 := by
  simp only [process_alert, hp, Bool.false_eq_true, if_false]
  split
  · exact ⟨_, rfl, rfl⟩
  · split
    · exact ⟨_, rfl, rfl⟩
    · split
      · exact ⟨_, rfl, rfl⟩
      · split
        · exact ⟨_, rfl, rfl⟩
        · split
          · exact ⟨_, rfl, rfl⟩
          · exact ⟨_, rfl, rfl⟩

/-- Claim C9 (confirmed): alert status transitions are monotonic along
`received → processing → {processed, failed, ignored}`: the status after a
`process_alert` invocation ranks at least the status before it, and an
already-terminal status is left exactly as it was. -/
theorem claim_C9 (cfg : RiskConfig) (a : Alert) (user : Option User)
    (ss : List (Strategy × ExecEnv)) (mo : Option Bool) (now : Nat) :
    ∃ a', (process_alert cfg (some a) user ss mo now).alert = some a' ∧
      alertRank a.status ≤ alertRank a'.status ∧
      (a.is_processed = true → a' = a) := by
  by_cases hp : a.is_processed
  · exact ⟨a, by simp [process_alert, hp], le_rfl, fun _ => rfl⟩
  · have hp' : a.is_processed = false := by
      revert hp; cases a.is_processed <;> simp
    obtain ⟨a', h1, h2⟩ :=
      process_alert_status_terminal cfg a user ss mo now hp'
    exact ⟨a', h1, h2 ▸ alertRank_le_two a.status, fun hc => absurd hc hp⟩

/-- Witness for C9 on a fresh `received` alert. -/
theorem claim_C9_witness :
    ∃ a', (process_alert sampleCfg (some sampleAlert) none [] none 0).alert =
        some a' ∧
      alertRank sampleAlert.status ≤ alertRank a'.status ∧
      (sampleAlert.is_processed = true → a' = sampleAlert) :=
  claim_C9 sampleCfg sampleAlert none [] none 0

/-- `apply_order_info` never touches the broker order id. -/
lemma apply_order_info_fyers_order_id (t : Trade) (info : OrderInfo)
    (now : Nat) :
    (apply_order_info t info now).fyers_order_id = t.fyers_order_id := by
  cases h1 : pyLower (info.status.getD "") == "filled" <;>
    cases h2 : pyLower (info.status.getD "") == "cancelled" <;>
      cases h3 : pyLower (info.status.getD "") == "rejected" <;>
        simp [apply_order_info, h1, h2, h3]

/-- `apply_order_info` always stores the raw broker status string. -/
lemma apply_order_info_fyers_status (t : Trade) (info : OrderInfo)
    (now : Nat) :
    (apply_order_info t info now).fyers_status = info.status := by
  cases h1 : pyLower (info.status.getD "") == "filled" <;>
    cases h2 : pyLower (info.status.getD "") == "cancelled" <;>
      cases h3 : pyLower (info.status.getD "") == "rejected" <;>
        simp [apply_order_info, h1, h2, h3]

/-- Claim C6 (confirmed): when the trade holds a broker order id and the
broker status query returns a payload, the lower-cased broker status is
mapped to the Trade status: `filled` sets FILLED, the filled timestamp,
and the filled quantity and average price from the broker data (defaulting
to the trade's own quantity and price when the broker omits them);
`cancelled` sets CANCELLED and the cancellation timestamp; `rejected` sets
REJECTED; any other status leaves the Trade status unchanged; in every
case the raw broker status string is stored. -/
theorem claim_C6 (t : Trade) (u : User) (info : OrderInfo) (now : Nat)
    (h : strTruthy t.fyers_order_id = true) :
    ∃ t', update_trade_status (some t) (some u) (some info) now =
        (some t', true) ∧
      t'.fyers_status = info.status ∧
      (pyLower (info.status.getD "") = "filled" →
        t'.status = TradeStatus.filled ∧ t'.filled_at = some now ∧
        (∀ q, info.filledQty = some q → t'.filled_quantity = q) ∧
        (info.filledQty = none → t'.filled_quantity = t.quantity) ∧
        (∀ v, info.avgPrice = some v → t'.average_price = some v) ∧
        (info.avgPrice = none → t'.average_price = t.price)) ∧
      (pyLower (info.status.getD "") = "cancelled" →
        t'.status = TradeStatus.cancelled ∧ t'.cancelled_at = some now) ∧
      (pyLower (info.status.getD "") = "rejected" →
        t'.status = TradeStatus.rejected) ∧
      (pyLower (info.status.getD "") ≠ "filled" →
        pyLower (info.status.getD "") ≠ "cancelled" →
        pyLower (info.status.getD "") ≠ "rejected" →
        t'.status = t.status) := by
  refine ⟨apply_order_info t info now, by simp [update_trade_status, h],
    apply_order_info_fyers_status t info now, ?_, ?_, ?_, ?_⟩
  · intro hf
    have e1 : (pyLower (info.status.getD "") == "filled") = true := by
      rw [hf]; decide
    refine ⟨?_, ?_, fun q hq => ?_, fun hq => ?_, fun v hv => ?_,
      fun hv => ?_⟩
    · simp [apply_order_info, e1]
    · simp [apply_order_info, e1]
    · simp [apply_order_info, e1, hq]
    · simp [apply_order_info, e1, hq]
    · simp [apply_order_info, e1, hv]
    · simp [apply_order_info, e1, hv]
  · intro hc
    have e1 : (pyLower (info.status.getD "") == "filled") = false := by
      rw [hc]; decide
    have e2 : (pyLower (info.status.getD "") == "cancelled") = true := by
      rw [hc]; decide
    constructor <;> simp [apply_order_info, e1, e2]
  · intro hr
    have e1 : (pyLower (info.status.getD "") == "filled") = false := by
      rw [hr]; decide
    have e2 : (pyLower (info.status.getD "") == "cancelled") = false := by
      rw [hr]; decide
    have e3 : (pyLower (info.status.getD "") == "rejected") = true := by
      rw [hr]; decide
    simp [apply_order_info, e1, e2, e3]
  · intro h1 h2 h3
    have e1 := beq_eq_false_iff_ne.mpr h1
    have e2 := beq_eq_false_iff_ne.mpr h2
    have e3 := beq_eq_false_iff_ne.mpr h3
    simp [apply_order_info, e1, e2, e3]

/-- Witness for C6: broker status "Filled" with quantity 10 and price
2501.25 transitions the trade as the mapping prescribes. -/
theorem claim_C6_witness :
    ∃ t', update_trade_status (some reconTrade) (some sampleUser)
        (some infoFilled) 5 = (some t', true) ∧
      t'.fyers_status = infoFilled.status ∧
      (pyLower (infoFilled.status.getD "") = "filled" →
        t'.status = TradeStatus.filled ∧ t'.filled_at = some 5 ∧
        (∀ q, infoFilled.filledQty = some q → t'.filled_quantity = q) ∧
        (infoFilled.filledQty = none →
          t'.filled_quantity = reconTrade.quantity) ∧
        (∀ v, infoFilled.avgPrice = some v → t'.average_price = some v) ∧
        (infoFilled.avgPrice = none →
          t'.average_price = reconTrade.price)) ∧
      (pyLower (infoFilled.status.getD "") = "cancelled" →
        t'.status = TradeStatus.cancelled ∧ t'.cancelled_at = some 5) ∧
      (pyLower (infoFilled.status.getD "") = "rejected" →
        t'.status = TradeStatus.rejected) ∧
      (pyLower (infoFilled.status.getD "") ≠ "filled" →
        pyLower (infoFilled.status.getD "") ≠ "cancelled" →
        pyLower (infoFilled.status.getD "") ≠ "rejected" →
        t'.status = reconTrade.status) :=
  claim_C6 reconTrade sampleUser infoFilled 5 (by decide)

/-- Counterexample to C2 as stated: re-applying the same `"Filled"`
broker payload at a later wall-clock time changes the trade's
`filled_at` field, so the second invocation does not leave every Trade
field identical. -/
theorem claim_C2_counterexample :
    (update_trade_status
        ((update_trade_status (some reconTrade) (some sampleUser)
            (some infoFilled) 0).1)
        (some sampleUser) (some infoFilled) 1).1 ≠
      (update_trade_status (some reconTrade) (some sampleUser)
          (some infoFilled) 0).1 := by
  have hs : strTruthy reconTrade.fyers_order_id = true := by decide
  have hfs : (pyLower (infoFilled.status.getD "") == "filled") = true := by
    decide
  have h1 : update_trade_status (some reconTrade) (some sampleUser)
      (some infoFilled) 0 =
      (some (apply_order_info reconTrade infoFilled 0), true) := by
    simp [update_trade_status, hs]
  have hs1 : strTruthy
      (apply_order_info reconTrade infoFilled 0).fyers_order_id = true := by
    rw [apply_order_info_fyers_order_id]; exact hs
  have h2 : update_trade_status
      (some (apply_order_info reconTrade infoFilled 0)) (some sampleUser)
      (some infoFilled) 1 =
      (some (apply_order_info (apply_order_info reconTrade infoFilled 0)
        infoFilled 1), true) := by
    simp [update_trade_status, hs1]
  rw [h1]
  show (update_trade_status
      (some (apply_order_info reconTrade infoFilled 0)) (some sampleUser)
      (some infoFilled) 1).1 ≠
    some (apply_order_info reconTrade infoFilled 0)
  rw [h2]
  intro hEq
  have hfa := congrArg Trade.filled_at (Option.some.inj hEq)
  rw [show (apply_order_info (apply_order_info reconTrade infoFilled 0)
        infoFilled 1).filled_at = some 1 by simp [apply_order_info, hfs],
    show (apply_order_info reconTrade infoFilled 0).filled_at = some 0 by
      simp [apply_order_info, hfs]] at hfa
  exact absurd hfa (by decide)

/-- Claim C2 (corrected): for a trade holding a broker order id and a
fixed broker payload, a second `update_trade_status` invocation leaves
every Trade field identical to its value after the first invocation
except the `filled_at` and `cancelled_at` timestamps, which are refreshed
to the second invocation's wall-clock time; when the two invocations
carry the same timestamp the trade is left fully identical. -/
theorem claim_C2 (t : Trade) (u : User) (info : OrderInfo) (n1 n2 : Nat)
    (h : strTruthy t.fyers_order_id = true) :
    ∃ t1 t2,
      update_trade_status (some t) (some u) (some info) n1 =
        (some t1, true) ∧
      update_trade_status (some t1) (some u) (some info) n2 =
        (some t2, true) ∧
      t2 = { t1 with filled_at := t2.filled_at,
                     cancelled_at := t2.cancelled_at } ∧
      (n2 = n1 → t2 = t1) := by
  have h1 : strTruthy (apply_order_info t info n1).fyers_order_id = true := by
    rw [apply_order_info_fyers_order_id]; exact h
  refine ⟨apply_order_info t info n1,
    apply_order_info (apply_order_info t info n1) info n2,
    by simp [update_trade_status, h],
    by simp [update_trade_status, h1], ?_, fun he => ?_⟩
  · cases hF : pyLower (info.status.getD "") == "filled" <;>
      cases hC : pyLower (info.status.getD "") == "cancelled" <;>
        cases hR : pyLower (info.status.getD "") == "rejected" <;>
          simp [apply_order_info, hF, hC, hR]
  · subst he
    cases hF : pyLower (info.status.getD "") == "filled" <;>
      cases hC : pyLower (info.status.getD "") == "cancelled" <;>
        cases hR : pyLower (info.status.getD "") == "rejected" <;>
          simp [apply_order_info, hF, hC, hR]

/-- Witness for C2: two invocations with the payload "Filled" at the same
timestamp 4 leave the trade fully identical. -/
theorem claim_C2_witness :
    ∃ t1 t2,
      update_trade_status (some reconTrade) (some sampleUser)
        (some infoFilled) 4 = (some t1, true) ∧
      update_trade_status (some t1) (some sampleUser) (some infoFilled) 4 =
        (some t2, true) ∧
      t2 = { t1 with filled_at := t2.filled_at,
                     cancelled_at := t2.cancelled_at } ∧
      (4 = 4 → t2 = t1) :=
  claim_C2 reconTrade sampleUser infoFilled 4 4 (by decide)

/-- The sample sizing pass computes quantity 1. -/
lemma calc_paper_one : calculate_position_size paperStrategy (some 100) 0 = 1 := by
  simp [calculate_position_size, truthy, paperStrategy]

/-- The sample risk check passes. -/
lemma risk_sample :
    check_risk_limits sampleCfg [] none "buy" 1 100 =
      (true, riskPassedReason) := by
  norm_num [check_risk_limits, sampleCfg, dailyLoss]

/-- The Trade row left by the sample paper execution pass: marked fully
filled at the reference price by the executor, then stamped `submitted`
by the engine. -/
def sampleExecutedTrade : Trade :=
  { symbol := "RELIANCE"
    exchange := "NSE"
    side := OrderSide.buy
    order_type := OrderType.market
    quantity := 1
    price := some 100
    filled_quantity := 1
    average_price := some 100
    total_amount := some 100
    fyers_order_id := none
    fyers_status := some "filled"
    fyers_message := none
    status := TradeStatus.submitted
    submitted_at := some 7
    filled_at := some 7
    cancelled_at := none
    net_pnl := none
    created_at := 7
    updated_at := 7 }

/-- Full evaluation of the sample paper execution pass. -/
lemma exec_sample_eq :
    execute_trade sampleCfg sampleEnv sampleAlert paperStrategy =
      ⟨some sampleExecutedTrade, true,
       { paperStrategy with total_trades := 1,
                            last_executed_at := some 7 }⟩ := by
  simp [execute_trade, sampleEnv, sampleAlert, AlertType.value,
    calc_paper_one, risk_sample, truthy, execute_paper_trade,
    Trade.update_execution, sampleExecutedTrade,
    show paperStrategy.is_paper_trading = true from rfl,
    show paperStrategy.total_trades = 0 from rfl]

/-- Counterexample to C1 as stated: the sample paper execution pass
succeeds, yet the resulting Trade record ends in status `submitted`, not
`filled` (the engine overwrites the executor's FILLED with SUBMITTED). -/
theorem claim_C1_counterexample :
    paperStrategy.is_paper_trading = true ∧
    (execute_trade sampleCfg sampleEnv sampleAlert paperStrategy).success =
      true ∧
    (execute_trade sampleCfg sampleEnv sampleAlert
        paperStrategy).created.map Trade.status =
      some TradeStatus.submitted ∧
    (execute_trade sampleCfg sampleEnv sampleAlert
        paperStrategy).created.map Trade.status ≠
      some TradeStatus.filled := by
  refine ⟨rfl, by rw [exec_sample_eq], by rw [exec_sample_eq]; rfl, ?_⟩
  rw [exec_sample_eq]
  simp [sampleExecutedTrade]

/-- The Trade row a successful paper execution pass leaves behind, in
terms of the pass's inputs. -/
def paperCreatedTrade (env : ExecEnv) (alert : Alert) (s : Strategy) :
    Trade :=
  { symbol := alert.symbol
    exchange := alert.exchange
    side := if alert.alert_type.value == "buy" then OrderSide.buy
            else OrderSide.sell
    order_type := OrderType.market
    quantity := calculate_position_size s env.sizing_price
      env.available_funds
    price := some (env.exec_price.getD 0)
    filled_quantity := calculate_position_size s env.sizing_price
      env.available_funds
    average_price := some (env.exec_price.getD 0)
    total_amount := some ((calculate_position_size s env.sizing_price
      env.available_funds : ℚ) * env.exec_price.getD 0)
    fyers_order_id := none
    fyers_status := some "filled"
    fyers_message := none
    status := TradeStatus.submitted
    submitted_at := some env.now
    filled_at := some env.now
    cancelled_at := none
    net_pnl := none
    created_at := env.now
    updated_at := env.now }

/-- Claim C1 (corrected): a paper-trade execution pass that reaches the
executor and returns true leaves the Trade fully filled at the reference
price captured at trade creation (`filled_quantity = quantity`,
`average_price = price`, broker status string "filled"), but its final
status is `submitted`, because the engine overwrites the executor's
FILLED on success. -/
theorem claim_C1 (cfg : RiskConfig) (env : ExecEnv) (alert : Alert)
    (s : Strategy) (hpaper : s.is_paper_trading = true)
    (hsucc : (execute_trade cfg env alert s).success = true) :
    ∃ t, (execute_trade cfg env alert s).created = some t ∧
      t.status = TradeStatus.submitted ∧
      t.filled_quantity = t.quantity ∧
      t.average_price = t.price ∧
      t.price = some (env.exec_price.getD 0) ∧
      t.fyers_status = some "filled" := by
  by_cases hq0 : calculate_position_size s env.sizing_price
      env.available_funds ≤ 0
  · simp [execute_trade, hq0] at hsucc
  · by_cases htr : truthy env.exec_price
    · by_cases hrisk : (check_risk_limits cfg env.daily_trades env.portfolio
          alert.alert_type.value
          (calculate_position_size s env.sizing_price env.available_funds)
          (env.exec_price.getD 0)).1 = true
      · refine ⟨paperCreatedTrade env alert s, ?_, rfl, rfl, rfl, rfl, rfl⟩
        simp [execute_trade, hq0, htr, hrisk, hpaper, paperCreatedTrade,
          execute_paper_trade, Trade.update_execution]
      · simp [execute_trade, hq0, htr, hrisk] at hsucc
    · simp [execute_trade, hq0, htr] at hsucc

/-- Witness for C1: the sample paper execution pass yields a trade with
status `submitted`, fully filled at the reference price 100. -/
theorem claim_C1_witness :
    ∃ t, (execute_trade sampleCfg sampleEnv sampleAlert
        paperStrategy).created = some t ∧
      t.status = TradeStatus.submitted ∧
      t.filled_quantity = t.quantity ∧
      t.average_price = t.price ∧
      t.price = some (sampleEnv.exec_price.getD 0) ∧
      t.fyers_status = some "filled" :=
  claim_C1 sampleCfg sampleEnv sampleAlert paperStrategy rfl
    (by rw [exec_sample_eq])

end Trader
